import Mathlib

/-!
# Verification of `ton_semantic_decoder.py`

Shallow embedding of the TON semantic decoder (`TonDecoder.decode_base64_comment`
and `TonDecoder.parse_event`) and proofs about the claims of its specification.

Modelling conventions:
* Python values flowing through the decoder are modelled by the `Json` type
  (`None`, `bool`, `int`, `str`, `list`, `dict`).
* Operations that can raise in Python (`obj.get` on a non-dict, indexing,
  unhashable dict keys, ...) return `Except String α`; the error string models
  `str(e)` of the raised exception (messages are abbreviated, no claim depends
  on their exact text).
* `float` results are modelled as the exact rational value of the IEEE binary64
  double produced by CPython (round to nearest, ties to even, 53-bit
  significand; values outside the finite double range do not occur in any
  statement below and are modelled by their rounded rational value).
* `decimal.Decimal` intermediate results are exact rationals, with division
  rounded to the default context precision of 28 significant digits.
-/

namespace TonSemanticDecoder

/-- Dynamic Python values handled by the decoder (the shapes a JSON API can
return: `None`, booleans, integers, strings, lists, dicts). -/
inductive Json where
  | null
  | bool (b : Bool)
  | num (n : Int)
  | str (s : String)
  | arr (elems : List Json)
  | obj (fields : List (String × Json))
deriving Inhabited

/-- First binding of `key` in an association list (Python dicts have unique
keys; for duplicated keys the first binding is authoritative). -/
def lookupField : List (String × Json) → String → Option Json
  | [], _ => none
  | (k, v) :: rest, key => if k = key then some v else lookupField rest key

/-- Python `obj.get(key, default)` : raises `AttributeError` when the receiver
is not a dict. -/
def pyGetD (j : Json) (key : String) (dflt : Json) : Except String Json :=
  match j with
  | .obj kvs => .ok ((lookupField kvs key).getD dflt)
  | _ => .error "AttributeError: object has no attribute get"

/-- Total dict access with default used to state spec-side extraction: a
non-dict receiver or a missing key yields the default. -/
def getDT (j : Json) (key : String) (dflt : Json) : Json :=
  match j with
  | .obj kvs => (lookupField kvs key).getD dflt
  | _ => dflt

/-- Python truthiness of a value. -/
def pyTruthy : Json → Bool
  | .null => false
  | .bool b => b
  | .num n => decide (n ≠ 0)
  | .str s => decide (s ≠ "")
  | .arr xs => !xs.isEmpty
  | .obj kvs => !kvs.isEmpty

/-- Python `x[0]` on a truthy value: lists yield their head, strings their
first character, dicts raise `KeyError`, numbers and booleans raise
`TypeError`. -/
def pyIndex0 : Json → Except String Json
  | .arr (x :: _) => .ok x
  | .arr [] => .error "IndexError: list index out of range"
  | .str s =>
    match s.toList with
    | c :: _ => .ok (.str (String.mk [c]))
    | [] => .error "IndexError: string index out of range"
  | .obj _ => .error "KeyError: 0"
  | _ => .error "TypeError: object is not subscriptable"

/-- Python `len(x)`: defined for strings, lists and dicts, `TypeError`
otherwise. -/
def pyLen : Json → Except String Nat
  | .str s => .ok s.length
  | .arr xs => .ok xs.length
  | .obj kvs => .ok kvs.length
  | _ => .error "TypeError: object has no len"

/-- Python `str(x)`. For lists and dicts the decoder only ever feeds the
result to `Decimal(...)` (where any bracketed text fails to parse) or embeds
it in a description no claim inspects, so their reprs are abbreviated. -/
def pyStr : Json → String
  | .null => "None"
  | .bool true => "True"
  | .bool false => "False"
  | .num n => toString n
  | .str s => s
  | .arr _ => "[...]"
  | .obj _ => "\x7b...\x7d"

/-- Code points with the Unicode whitespace property, as used by Python
`str.strip()` and `str.isspace()`. -/
def pyIsSpace (c : Char) : Bool :=
  let n := c.toNat
  (0x09 ≤ n && n ≤ 0x0D) || (0x1C ≤ n && n ≤ 0x1F) || n == 0x20 ||
  n == 0x85 || n == 0xA0 || n == 0x1680 || (0x2000 ≤ n && n ≤ 0x200A) ||
  n == 0x2028 || n == 0x2029 || n == 0x202F || n == 0x205F || n == 0x3000

/-- Python `str.isprintable()` for a single character: false for control
(Cc), separator (Zs/Zl/Zp except the ASCII space) and the common format (Cf)
code points, and for the private-use planes. Unassigned code points (category
Cn, also non-printable in CPython) are not tabulated; none occurs in any
statement below. -/
def pyIsPrintable (c : Char) : Bool :=
  let n := c.toNat
  !((n < 0x20) || (0x7F ≤ n && n ≤ 0xA0) || n == 0xAD || n == 0x1680 ||
    (0x2000 ≤ n && n ≤ 0x200F) || (0x2028 ≤ n && n ≤ 0x202F) ||
    n == 0x205F || (0x2060 ≤ n && n ≤ 0x2064) || (0x2066 ≤ n && n ≤ 0x206F) ||
    n == 0x3000 || n == 0xFEFF || (0xFFF9 ≤ n && n ≤ 0xFFFB) ||
    (0xE000 ≤ n && n ≤ 0xF8FF) || (0xF0000 ≤ n && n ≤ 0xFFFFD) ||
    (0x100000 ≤ n && n ≤ 0x10FFFD))

/-- Python `str.strip()`: remove leading and trailing whitespace. -/
def pyStrip (l : List Char) : List Char :=
  ((l.dropWhile pyIsSpace).reverse.dropWhile pyIsSpace).reverse

/-- Value of a character in the standard base64 alphabet. -/
def b64Val (c : Char) : Option Nat :=
  if 'A' ≤ c && c ≤ 'Z' then some (c.toNat - 'A'.toNat)
  else if 'a' ≤ c && c ≤ 'z' then some (c.toNat - 'a'.toNat + 26)
  else if '0' ≤ c && c ≤ '9' then some (c.toNat - '0'.toNat + 52)
  else if c = '+' then some 62
  else if c = '/' then some 63
  else none

/-- Decode one full base64 quad into three bytes. -/
def b64Quad (a b c d : Nat) : List Nat :=
  let n := a * 262144 + b * 4096 + c * 64 + d
  [n / 65536, n / 256 % 256, n % 256]

/-- Decode a final padded group of two data characters into one byte
(excess bits are ignored, as in non-strict CPython `binascii`). -/
def b64Final2 (a b : Nat) : List Nat :=
  [a * 4 + b / 16]

/-- Decode a final padded group of three data characters into two bytes. -/
def b64Final3 (a b c : Nat) : List Nat :=
  let n := a * 1024 + b * 16 + c / 4
  [n / 256, n % 256]

/-- Worker for `b64decode`: consumes characters, skipping any character that
is neither in the base64 alphabet nor `=` (CPython non-strict mode), and
accumulates the values of the current quad. On `=` after two or three data
characters the group is closed (a second `=` is required after two) and the
remaining input is ignored; an `=` arriving earlier is discarded. Leftover
data characters at the end of input raise `binascii.Error`. -/
def b64DecodeGo : List Char → List Nat → Except String (List Nat)
  | [], quad =>
    match quad with
    | [] => .ok []
    | _ => .error "binascii.Error: Incorrect padding"
  | c :: rest, quad =>
    if c = '=' then
      match quad with
      | [a, b] =>
        if rest.contains '=' then .ok (b64Final2 a b)
        else .error "binascii.Error: Incorrect padding"
      | [a, b, c2] => .ok (b64Final3 a b c2)
      | _ => b64DecodeGo rest quad
    else
      match b64Val c with
      | none => b64DecodeGo rest quad
      | some v =>
        match quad with
        | [a, b, c2] => do
          let restBytes ← b64DecodeGo rest []
          pure (b64Quad a b c2 v ++ restBytes)
        | _ => b64DecodeGo rest (quad ++ [v])

/-- Model of `base64.b64decode` on text input (non-strict mode). -/
def b64decode (s : String) : Except String (List Nat) :=
  b64DecodeGo s.toList []

/-- Whether a byte is a UTF-8 continuation byte. -/
def isCont (b : Nat) : Bool := 0x80 ≤ b && b ≤ 0xBF

/-- Attempt to decode one multi-byte UTF-8 sequence with lead byte `b` and
following bytes `rest`: returns the decoded character and the number of
continuation bytes consumed. Well-formedness (no overlongs, no surrogates,
max U+10FFFF) is enforced by the range checks on the second byte. -/
def decodeMB (b : Nat) (rest : List Nat) : Option (Char × Nat) :=
  match rest with
  | [] => none
  | b2 :: rest2 =>
    if 0xC2 ≤ b && b ≤ 0xDF && isCont b2 then
      some (Char.ofNat ((b - 0xC0) * 64 + (b2 - 0x80)), 1)
    else
      match rest2 with
      | [] => none
      | b3 :: rest3 =>
        let c3 := Char.ofNat ((b - 0xE0) * 4096 + (b2 - 0x80) * 64 + (b3 - 0x80))
        if b == 0xE0 && (0xA0 ≤ b2 && b2 ≤ 0xBF) && isCont b3 then some (c3, 2)
        else if ((0xE1 ≤ b && b ≤ 0xEC) || b == 0xEE || b == 0xEF) &&
            isCont b2 && isCont b3 then some (c3, 2)
        else if b == 0xED && (0x80 ≤ b2 && b2 ≤ 0x9F) && isCont b3 then some (c3, 2)
        else
          match rest3 with
          | [] => none
          | b4 :: _ =>
            let c4 := Char.ofNat ((b - 0xF0) * 262144 + (b2 - 0x80) * 4096 +
              (b3 - 0x80) * 64 + (b4 - 0x80))
            if b == 0xF0 && (0x90 ≤ b2 && b2 ≤ 0xBF) && isCont b3 && isCont b4 then
              some (c4, 3)
            else if (0xF1 ≤ b && b ≤ 0xF3) && isCont b2 && isCont b3 && isCont b4 then
              some (c4, 3)
            else if b == 0xF4 && (0x80 ≤ b2 && b2 ≤ 0x8F) && isCont b3 && isCont b4 then
              some (c4, 3)
            else none

/-- Fuelled worker for UTF-8 decoding with `errors="ignore"`: ASCII bytes are
taken directly, well-formed multi-byte sequences are decoded, and any byte
that starts no well-formed sequence is skipped. Each step consumes at least
one byte, so `l.length` fuel always suffices. -/
def utf8Go : Nat → List Nat → List Char
  | 0, _ => []
  | fuel + 1, l =>
    match l with
    | [] => []
    | b :: rest =>
      if b < 0x80 then Char.ofNat b :: utf8Go fuel rest
      else
        match decodeMB b rest with
        | some (c, k) => c :: utf8Go fuel (rest.drop k)
        | none => utf8Go fuel rest

/-- Model of `bytes.decode("utf-8", errors="ignore")`. -/
def utf8DecodeIgnore (l : List Nat) : List Char :=
  utf8Go l.length l

/-- Fuelled worker for Python `str.replace`: scan left to right, replacing
each non-overlapping occurrence of `pat`. One unit of fuel is spent per
step; `replaceSeq` supplies `l.length` fuel, which always suffices. -/
def replGo (pat rep : List Char) : Nat → List Char → List Char
  | _, [] => []
  | 0, l => l
  | fuel + 1, c :: rest =>
    if !pat.isEmpty && pat.isPrefixOf (c :: rest) then
      rep ++ replGo pat rep fuel (List.drop (pat.length - 1) rest)
    else c :: replGo pat rep fuel rest

/-- Python `s.replace(pat, rep)` on character lists (left to right,
non-overlapping occurrences). -/
def replaceSeq (pat rep : List Char) (l : List Char) : List Char :=
  replGo pat rep l.length l

/-- The defang chain of `decode_base64_comment` (source line 49):
`.replace("http://", "hxxp://").replace("https://", "hxxps://").replace(".", "[.]")`. -/
def defangChars (l : List Char) : List Char :=
  replaceSeq ".".toList "[.]".toList
    (replaceSeq "https://".toList "hxxps://".toList
      (replaceSeq "http://".toList "hxxp://".toList l))

/-- Model of `TonDecoder.decode_base64_comment` (source lines 30-51). The
parameter is an arbitrary Python value because `parse_event` passes the raw
comment through unchecked; every internal exception (a `TypeError` from
`len`/`b64decode` on a non-string, or a `binascii.Error`) is caught by the
`except` clause, which returns the empty string. -/
def decode_base64_comment (b64_str : Json) : String :=
  if !(pyTruthy b64_str) then ""
  else
    match pyLen b64_str with
    | .error _ => ""
    | .ok n =>
      if n > 4096 then "<encoded payload too large>"
      else
        match b64_str with
        | .str s =>
          match b64decode s with
          | .error _ => ""
          | .ok bytes =>
            let text := pyStrip (utf8DecodeIgnore bytes)
            let text := text.filter pyIsPrintable
            String.mk (defangChars text)
        | _ => ""

/-! ## Exact numeric models

`decimal.Decimal` values are pairs `c·10^e`; the `float` produced by
`float(...)` is kept as a canonical pair `m·2^e` (odd mantissa, or `0·2^0`),
which determines the IEEE binary64 value exactly. All arithmetic is on `Int`
and `Nat`, so every definition evaluates inside the kernel. -/

/-- Exact value of a `decimal.Decimal`: the rational `c * 10 ^ e`. -/
structure Dec where
  c : Int
  e : Int
deriving DecidableEq, Repr

/-- Exact value of an IEEE binary64 `float`: the rational `man * 2 ^ exp`,
kept canonical (odd mantissa, or `⟨0, 0⟩` for zero), so value equality of
finite doubles is structural equality. -/
structure FP where
  man : Int
  exp : Int
deriving DecidableEq, Repr

/-- Fuelled base-2 logarithm: `log2F fuel n` is `⌊log₂ n⌋` whenever
`fuel ≥ log₂ n` (in particular for `fuel = n`); `0` for `n < 2`. -/
def log2F : Nat → Nat → Nat
  | 0, _ => 0
  | fuel + 1, n => if 2 ≤ n then log2F fuel (n / 2) + 1 else 0

/-- Number of decimal digits of `n` (at least 1). -/
def digitCountF : Nat → Nat → Nat
  | 0, _ => 1
  | fuel + 1, n => if 10 ≤ n then digitCountF fuel (n / 10) + 1 else 1

/-- Number of decimal digits of a natural number. -/
def digitCount (n : Nat) : Nat := digitCountF n n

/-- Round `num / den` to the nearest natural number, ties to even
(`den` positive). -/
def halfEvenDivNat (num den : Nat) : Nat :=
  let q := num / den
  let r := num % den
  if 2 * r < den then q
  else if den < 2 * r then q + 1
  else if q % 2 == 0 then q else q + 1

/-- Strip factors of ten from a coefficient, moving them into the exponent
(used to reach the minimal-coefficient form of an exact decimal quotient). -/
def stripTens : Nat → Int → Int → Dec
  | 0, c, e => ⟨c, e⟩
  | fuel + 1, c, e => if c % 10 == 0 && c ≠ 0 then stripTens fuel (c / 10) (e + 1) else ⟨c, e⟩

/-- Round a decimal value to the default `decimal` context precision of 28
significant digits (ROUND_HALF_EVEN); values already representable with at
most 28 significant digits are returned exactly. -/
def roundSig28 (x : Dec) : Dec :=
  if x.c = 0 then ⟨0, x.e⟩
  else
    let m := stripTens x.c.natAbs (if x.c < 0 then -x.c else x.c) x.e
    let s : Int := if x.c < 0 then -1 else 1
    let d := digitCount m.c.natAbs
    if d ≤ 28 then ⟨s * m.c, m.e⟩
    else
      let sh := d - 28
      ⟨s * halfEvenDivNat m.c.natAbs (10 ^ sh), m.e + sh⟩

/-- Model of `Decimal(x) / Decimal(10 ** k)` (the only divisions the decoder
performs have a power of ten as divisor): the exact quotient rounded to the
context precision of 28 significant digits. -/
def decDivPow10 (x : Dec) (k : Nat) : Dec :=
  roundSig28 ⟨x.c, x.e - k⟩

/-- Whether `2 ^ L ≤ n / 10 ^ m` (for `n ≥ 1`), by cross multiplication. -/
def le2pow (L : Int) (n m : Nat) : Bool :=
  if 0 ≤ L then decide (2 ^ L.toNat * 10 ^ m ≤ n) else decide (10 ^ m ≤ n * 2 ^ (-L).toNat)

/-- Floor of the base-2 logarithm of `n·10^e` for `n ≥ 1`: computed from a
candidate (difference of integer logarithms, correct within one) adjusted by
exact comparisons. -/
def floorLog2Dec (n : Nat) (e : Int) : Int :=
  if 0 ≤ e then (log2F (n * 10 ^ e.toNat) (n * 10 ^ e.toNat) : Int)
  else
    let m := (-e).toNat
    let t := 10 ^ m
    let c0 : Int := (log2F n n : Int) - (log2F t t : Int)
    if le2pow (c0 + 1) n m then c0 + 1
    else if le2pow c0 n m then c0
    else c0 - 1

/-- Canonicalize a mantissa/exponent pair by moving factors of two into the
exponent (the mantissa is at most `2^53`, so 64 steps always suffice). -/
def stripTwos : Nat → Int → Int → FP
  | 0, m, e => ⟨m, e⟩
  | fuel + 1, m, e => if m % 2 == 0 && m ≠ 0 then stripTwos fuel (m / 2) (e + 1) else ⟨m, e⟩

/-- Round the exact decimal value to the nearest IEEE binary64 double
(round to nearest, ties to even), as CPython `float(Decimal(...))` does.
Subnormals round at the fixed scale `2^-1074`; values at or beyond the
overflow threshold (none occurs in any statement below, CPython would
return `inf`) are modelled by their rounded rational value. -/
def floatRound (d : Dec) : FP :=
  if d.c = 0 then ⟨0, 0⟩
  else
    let s : Int := if d.c < 0 then -1 else 1
    let n := d.c.natAbs
    let E := floorLog2Dec n d.e
    let me : Int := max (E - 52) (-1074)
    let num := n * (if 0 ≤ d.e then 10 ^ d.e.toNat else 1) *
      (if me < 0 then 2 ^ (-me).toNat else 1)
    let den := (if d.e < 0 then 10 ^ (-d.e).toNat else 1) *
      (if 0 ≤ me then 2 ^ me.toNat else 1)
    let M := halfEvenDivNat num den
    stripTwos 64 (s * M) me

/-- Exact comparison of a (finite) float value with the decimal `c·10^e`:
`man·2^exp = c·10^e` decided by clearing denominators. -/
def fpEqDec (f : FP) (c e : Int) : Bool :=
  let p := (-f.exp).toNat
  let q := (-e).toNat
  f.man * 2 ^ (f.exp + p).toNat * 10 ^ q == c * 10 ^ (e + q).toNat * 2 ^ p

/-- Parse a run of ASCII digits: value, digit count, rest of input. -/
def goDigits : List Char → Nat → Nat → Nat × Nat × List Char
  | [], v, k => (v, k, [])
  | ch :: rest, v, k =>
    if '0' ≤ ch && ch ≤ '9' then goDigits rest (v * 10 + (ch.toNat - 48)) (k + 1)
    else (v, k, ch :: rest)

/-- Parse an optional sign, returning the sign and the rest. -/
def readSign : List Char → Int × List Char
  | '-' :: rest => (-1, rest)
  | '+' :: rest => (1, rest)
  | l => (1, l)

/-- Model of the `Decimal` string constructor on numeric strings: optional
surrounding whitespace, optional sign, digits with an optional single point,
and an optional decimal exponent. The special forms `NaN`/`Infinity` and
digit-group underscores are not modelled (they never arise in any statement
below and no claim depends on them); non-numeric text fails, which
`parse_event` turns into an amount of `0.0`. -/
def parseDecimal (s : String) : Option Dec :=
  let l := pyStrip s.toList
  let (sg, l1) := readSign l
  let (v1, k1, r1) := goDigits l1 0 0
  let (coeff, fracLen, r2) :=
    match r1 with
    | '.' :: tl =>
      let (v2, k2, r2) := goDigits tl 0 0
      (v1 * 10 ^ k2 + v2, k2, r2)
    | _ => (v1, 0, r1)
  if k1 == 0 && fracLen == 0 then none
  else
    match r2 with
    | [] => some ⟨sg * coeff, -(fracLen : Int)⟩
    | ch :: tl =>
      if ch = 'e' || ch = 'E' then
        let (esg, tl1) := readSign tl
        let (ev, ek, tl2) := goDigits tl1 0 0
        if ek == 0 || !tl2.isEmpty then none
        else some ⟨sg * coeff, esg * ev - (fracLen : Int)⟩
      else none

/-- Model of Python `int(x)` used for the decimal count: integers are taken
as-is, booleans are 0/1, strings parse as an optionally signed digit run with
surrounding whitespace; everything else raises (`ValueError`/`TypeError`),
which the decoder turns into the fallback of 9. -/
def pyInt (v : Json) : Option Int :=
  match v with
  | .num n => some n
  | .bool b => some (if b then 1 else 0)
  | .str s =>
    let l := pyStrip s.toList
    let (sg, l1) := readSign l
    let (v1, k1, r1) := goDigits l1 0 0
    if k1 == 0 || !r1.isEmpty then none else some (sg * v1)
  | _ => none

/-- Digit characters of a natural number, most significant first. -/
def natDigitsF : Nat → Nat → List Char
  | 0, _ => []
  | fuel + 1, n =>
    if n < 10 then [Char.ofNat (48 + n)]
    else natDigitsF fuel (n / 10) ++ [Char.ofNat (48 + n % 10)]

/-- Insert thousands separators into a digit list given least significant
first (call with a countdown of 2): after every third digit a comma is
emitted unless the digits are exhausted. -/
def groupDigitsRev : Nat → List Char → List Char
  | _, [] => []
  | 0, ch :: rest => ch :: (if rest.isEmpty then [] else ',' :: groupDigitsRev 2 rest)
  | k + 1, ch :: rest => ch :: groupDigitsRev k rest

/-- Model of the Python format specification `,.2f` applied to a float:
round to two fractional digits (ties to even on the exact binary value) and
group the integer part with commas. The sign is taken from the value, so
small negatives format as `-0.00` exactly as CPython does. -/
def formatCommas2f (f : FP) : String :=
  let a := f.man.natAbs
  let n :=
    if 0 ≤ f.exp then a * 2 ^ f.exp.toNat * 100
    else halfEvenDivNat (a * 100) (2 ^ (-f.exp).toNat)
  let ip := n / 100
  let fr := n % 100
  let ipChars := (groupDigitsRev 2 (natDigitsF ip ip).reverse).reverse
  let ipChars := if ip == 0 then ['0'] else ipChars
  let frChars := (if fr < 10 then ['0'] else []) ++ natDigitsF fr fr
  let frChars := if fr == 0 then ['0', '0'] else frChars
  String.mk ((if f.man < 0 then ['-'] else []) ++ ipChars ++ '.' :: frChars)

/-! ## The event interpreter `parse_event`

The body of the Python `try:` block is `parseEventBody`; every operation that
can raise propagates an `Except.error` carrying the message together with the
partially mutated `result` dict, exactly as the mutations performed so far
survive into the `except` handler. -/

/-- Python `==` between a decoded value and a `str` (values of other types
never compare equal to a string). -/
def pyEqStr (v : Json) (w : String) : Bool :=
  match v with
  | .str s => s == w
  | _ => false

/-- The `OPCODES` table (source lines 8-19; the file stores the emoji bytes
double-encoded, reproduced here verbatim). -/
def OPCODES : List (String × String) :=
  [("0x00000000", "ðŸ’¬ Text Comment"),
   ("0xf8a7ea5", "ðŸ’¸ Jetton Transfer"),
   ("0x178d4519", "ðŸ’³ Jetton Internal Transfer"),
   ("0x5fcc3d14", "ðŸ–¼ NFT Transfer"),
   ("0x05138d91", "ðŸ’Ž SFX Deposit"),
   ("0xd53276db", "ðŸ”™ Excesses (Cashback)"),
   ("0xea06185d", "ðŸ’Ž Jetton Mint"),
   ("0x595f07bc", "ðŸ”¥ Jetton Burn"),
   ("0x88e2c913", "âš¡ï¸ Swap (DeDust/STON)"),
   ("0x25938561", "ðŸ¦ Stake / Add Liquidity")]

/-- First binding of a key in a string-valued table. -/
def lookupStr : List (String × String) → String → Option String
  | [], _ => none
  | (k, v) :: rest, key => if k = key then some v else lookupStr rest key

/-- Python `OPCODES.get(op_code, "Call Contract")`: lists and dicts are
unhashable keys and raise `TypeError`; hashable non-string keys never match
the string keys of the table. -/
def opcodesGet (k : Json) : Except String String :=
  match k with
  | .arr _ => .error "TypeError: unhashable type: list"
  | .obj _ => .error "TypeError: unhashable type: dict"
  | .str s => .ok ((lookupStr OPCODES s).getD "Call Contract")
  | _ => .ok "Call Contract"

/-- ASCII lowercasing, modelling Python `str.lower()` on the alphabets the
scam denylist can match. -/
def asciiLower (s : String) : String :=
  String.mk (s.toList.map fun c => if 'A' ≤ c && c ≤ 'Z' then Char.ofNat (c.toNat + 32) else c)

/-- Whether `pat` occurs as a contiguous substring of `l` (Python `in`). -/
def containsSub (pat : List Char) : List Char → Bool
  | [] => pat.isEmpty
  | c :: rest => pat.isPrefixOf (c :: rest) || containsSub pat rest

/-- The scam heuristic of source line 180: the lowercased symbol contains one
of the denylist substrings. -/
def scamHit (s : String) : Bool :=
  ["claim", "gift", "subs", "free", "voucher"].any
    fun x => containsSub x.toList (asciiLower s).toList

/-- The warning suffix appended to the description for scam-flagged tokens
(source line 182). -/
def scamSuffix : String := " (âš ï¸ SUSPICIOUS - DO NOT INTERACT)"

/-- The decimal-count extraction of source lines 151-157: `int(...)` result
clamped to `[0, 30]`, with 9 as fallback for conversion failures and
out-of-range values. -/
def clampDecimals (raw : Json) : Int :=
  match pyInt raw with
  | some d => if 0 ≤ d ∧ d ≤ 30 then d else 9
  | none => 9

/-- TON amount: `float(Decimal(str(x)) / Decimal("1000000000"))`, `0.0` on
parse failure (source lines 125-128). -/
def tonAmount (amtVal : Json) : FP :=
  match parseDecimal (pyStr amtVal) with
  | none => ⟨0, 0⟩
  | some d => floatRound (decDivPow10 d 9)

/-- Jetton amount: `float(Decimal(str(x)) / Decimal("10") ** decimals)`,
`0.0` on parse failure (source lines 160-164). -/
def jettonAmount (amtVal : Json) (decimals : Int) : FP :=
  match parseDecimal (pyStr amtVal) with
  | none => ⟨0, 0⟩
  | some d => floatRound (decDivPow10 d decimals.toNat)

/-- The `result` dict as initialized at source lines 88-96. -/
structure EventResult where
  action : String
  direction : String
  description : String
  is_scam_risk : Bool
  sender : Json
  amount : FP
  currency : Json

/-- Initial result value (source lines 88-96). -/
def initResult : EventResult :=
  { action := "Unknown", direction := "neutral", description := "Blockchain interaction",
    is_scam_risk := false, sender := .str "Unknown", amount := ⟨0, 0⟩, currency := .str "TON" }

/-- The comment resolution of source lines 112-120: try the safe base64
decoder; if it yields the empty string, fall back to the raw comment as
plain text with only non-printable characters stripped. -/
def resolveComment (raw_comment : Json) : String :=
  if pyTruthy raw_comment then
    let decoded := decode_base64_comment raw_comment
    if decoded = "" then String.mk ((pyStr raw_comment).toList.filter pyIsPrintable)
    else decoded
  else ""

/-- The `TonTransfer` branch (source lines 108-141). Mutations to `result`
happen only after every fallible access has succeeded, so errors carry the
incoming state unchanged. -/
def tonTransferBranch (a : Json) (w : String) (st : EventResult) :
    Except (String × EventResult) EventResult :=
  match pyGetD a "TonTransfer" (.obj []) with
  | .error m => .error (m, st)
  | .ok tr =>
    match pyGetD tr "comment" .null with
    | .error m => .error (m, st)
    | .ok raw_comment =>
      let comment := resolveComment raw_comment
      match pyGetD tr "sender" (.obj []) with
      | .error m => .error (m, st)
      | .ok sv =>
        match pyGetD sv "address" (.str "") with
        | .error m => .error (m, st)
        | .ok sender =>
          match pyGetD tr "amount" (.num 0) with
          | .error m => .error (m, st)
          | .ok amtVal =>
            let st := { st with sender := sender, amount := tonAmount amtVal }
            let st :=
              if pyEqStr sender w then
                { st with direction := "out", action := "ðŸ’¸ Sent TON" }
              else
                { st with direction := "in", action := "ðŸ’° Received TON" }
            .ok { st with description :=
              if comment ≠ "" then "Comment: " ++ comment else "Direct Transfer" }

/-- The `JettonTransfer` branch (source lines 144-182). The scam check calls
`symbol.lower()`, which raises `AttributeError` on a non-string symbol after
the currency, amount, sender, direction and description updates have already
been applied — the error therefore carries the updated state. -/
def jettonTransferBranch (a : Json) (w : String) (st : EventResult) :
    Except (String × EventResult) EventResult :=
  match pyGetD a "JettonTransfer" (.obj []) with
  | .error m => .error (m, st)
  | .ok jt =>
    match pyGetD jt "sender" (.obj []) with
    | .error m => .error (m, st)
    | .ok sv =>
      match pyGetD sv "address" (.str "") with
      | .error m => .error (m, st)
      | .ok sender =>
        match pyGetD jt "jetton" (.obj []) with
        | .error m => .error (m, st)
        | .ok jet =>
          match pyGetD jet "symbol" (.str "TOKEN") with
          | .error m => .error (m, st)
          | .ok symbol =>
            match pyGetD jt "jetton" (.obj []) with
            | .error m => .error (m, st)
            | .ok jet2 =>
              match pyGetD jet2 "decimals" (.num 9) with
              | .error m => .error (m, st)
              | .ok rawDec =>
                let decimals := clampDecimals rawDec
                match pyGetD jt "amount" (.num 0) with
                | .error m => .error (m, st)
                | .ok amtVal =>
                  let real_amt := jettonAmount amtVal decimals
                  let st := { st with currency := symbol, amount := real_amt, sender := sender }
                  let st :=
                    if pyEqStr sender w then
                      { st with direction := "out"
                                action := "ðŸ’¸ Sent " ++ pyStr symbol }
                    else
                      { st with direction := "in"
                                action := "ðŸ’° Received " ++ pyStr symbol }
                  let st := { st with description :=
                    "Volume: " ++ formatCommas2f real_amt ++ " " ++ pyStr symbol }
                  match symbol with
                  | .str sym =>
                    if scamHit sym then
                      .ok { st with is_scam_risk := true
                                    description := st.description ++ scamSuffix }
                    else .ok st
                  | _ => .error ("AttributeError: object has no attribute lower", st)

/-- The `SmartContractExec` branch (source lines 190-194). -/
def smartContractExecBranch (a : Json) (st : EventResult) :
    Except (String × EventResult) EventResult :=
  match pyGetD a "SmartContractExec" (.obj []) with
  | .error m => .error (m, st)
  | .ok sce =>
    match pyGetD sce "operation" (.str "Unknown") with
    | .error m => .error (m, st)
    | .ok op_code =>
      match opcodesGet op_code with
      | .error m => .error (m, st)
      | .ok op_name =>
        .ok { st with action := "âš™ï¸ " ++ op_name
                      description := "OpCode: " ++ pyStr op_code }

/-- Dispatch on the declared type of the primary action (source lines
105-194). An unrecognized or missing type leaves the result unchanged. -/
def parseAction (a : Json) (w : String) (st : EventResult) :
    Except (String × EventResult) EventResult :=
  match pyGetD a "type" .null with
  | .error m => .error (m, st)
  | .ok ty =>
    if pyEqStr ty "TonTransfer" then tonTransferBranch a w st
    else if pyEqStr ty "JettonTransfer" then jettonTransferBranch a w st
    else if pyEqStr ty "ContractDeploy" then
      .ok { st with action := "ðŸ— Contract Deploy"
                    description := "New wallet initialized" }
    else if pyEqStr ty "SmartContractExec" then smartContractExecBranch a st
    else .ok st

/-- The body of the `try:` block of `parse_event` (source lines 98-194):
fetch `actions`, return the default result when it is falsy, and interpret
the first entry. -/
def parseEventBody (e : Json) (w : String) (st : EventResult) :
    Except (String × EventResult) EventResult :=
  match pyGetD e "actions" (.arr []) with
  | .error m => .error (m, st)
  | .ok actions =>
    if pyTruthy actions then
      match pyIndex0 actions with
      | .error m => .error (m, st)
      | .ok a => parseAction a w st
    else .ok st

/-- Model of `TonDecoder.parse_event` (source lines 53-200): the `except`
handler catches any exception, logs it, and overwrites only the description
of the partially built result with `"Error parsing: " + str(e)`. -/
def parse_event (event_data : Json) (my_wallet : String) : EventResult :=
  match parseEventBody event_data my_wallet initResult with
  | .ok r => r
  | .error (m, r) => { r with description := "Error parsing: " ++ m }

/-! ## Spec-side observation functions

These definitions follow the wording of the specification (transfer-shaped
events, the sender address, the token symbol) and serve to compare the
behaviour of `parse_event` with the spec claims. They share the extraction
scaffold of the implementation so the comparison is over the same inputs. -/

/-- First entry of the `actions` sequence of an event, when the event is a
record whose `actions` field is a non-empty list. -/
def firstActionOf (e : Json) : Option Json :=
  match e with
  | .obj kvs =>
    match lookupField kvs "actions" with
    | some (.arr (a :: _)) => some a
    | _ => none
  | _ => none

/-- Whether the event is transfer-shaped in the sense of the spec: its first
action carries the declared type `TonTransfer` or `JettonTransfer`. -/
def transferShaped (e : Json) : Bool :=
  match pyGetD e "actions" (.arr []) with
  | .error _ => false
  | .ok actions =>
    if pyTruthy actions then
      match pyIndex0 actions with
      | .error _ => false
      | .ok a =>
        match pyGetD a "type" .null with
        | .error _ => false
        | .ok ty => pyEqStr ty "TonTransfer" || pyEqStr ty "JettonTransfer"
    else false

/-- Whether the first action of the event declares the given type. -/
def firstTypeIs (e : Json) (t : String) : Bool :=
  match pyGetD e "actions" (.arr []) with
  | .error _ => false
  | .ok actions =>
    if pyTruthy actions then
      match pyIndex0 actions with
      | .error _ => false
      | .ok a =>
        match pyGetD a "type" .null with
        | .error _ => false
        | .ok ty => pyEqStr ty t
    else false

/-- The sender address of a transfer action under the key `key`, read with
defaults exactly along the access path of the code
(`action[key]["sender"]["address"]`, empty string when absent). -/
def senderInAction (a : Json) (key : String) : Json :=
  getDT (getDT (getDT a key (.obj [])) "sender" (.obj [])) "address" (.str "")

/-- The sender address of a transfer-shaped event (empty string for events
that are not transfer-shaped). -/
def senderOfD (e : Json) : Json :=
  match pyGetD e "actions" (.arr []) with
  | .error _ => .str ""
  | .ok actions =>
    if pyTruthy actions then
      match pyIndex0 actions with
      | .error _ => .str ""
      | .ok a =>
        match pyGetD a "type" .null with
        | .error _ => .str ""
        | .ok ty =>
          if pyEqStr ty "TonTransfer" then senderInAction a "TonTransfer"
          else if pyEqStr ty "JettonTransfer" then senderInAction a "JettonTransfer"
          else .str ""
    else .str ""

/-- The token symbol read from the nested metadata of a jetton transfer
action (`action["JettonTransfer"]["jetton"]["symbol"]`, `"TOKEN"` when
absent). -/
def jettonSymbolIn (a : Json) : Json :=
  getDT (getDT (getDT a "JettonTransfer" (.obj [])) "jetton" (.obj [])) "symbol" (.str "TOKEN")

/-- The token symbol of an event whose first action is a jetton transfer
(empty string otherwise). -/
def symbolOfD (e : Json) : Json :=
  match pyGetD e "actions" (.arr []) with
  | .error _ => .str ""
  | .ok actions =>
    if pyTruthy actions then
      match pyIndex0 actions with
      | .error _ => .str ""
      | .ok a =>
        match pyGetD a "type" .null with
        | .error _ => .str ""
        | .ok ty =>
          if pyEqStr ty "JettonTransfer" then jettonSymbolIn a else .str ""
    else .str ""

/-! ## Helper lemmas -/

/-- A successful guarded access coincides with the total default access. -/
theorem getDT_of_pyGetD_ok {j : Json} {key : String} {dflt v : Json}
    (h : pyGetD j key dflt = .ok v) : getDT j key dflt = v := by
  cases j <;> simp [pyGetD] at h <;> simp [getDT, h]

/-- `parseEventBody` interprets exactly the first action of the `actions`
list. -/
theorem parseEventBody_firstAction {e a : Json} (h : firstActionOf e = some a)
    (w : String) (st : EventResult) : parseEventBody e w st = parseAction a w st := by
  cases e with
  | obj kvs =>
    simp only [firstActionOf] at h
    cases hl : lookupField kvs "actions" with
    | none => simp [hl] at h
    | some v =>
      rw [hl] at h
      cases v with
      | arr elems =>
        cases elems with
        | nil => simp at h
        | cons x xs =>
          simp at h
          subst h
          simp [parseEventBody, pyGetD, hl, pyTruthy, pyIndex0]
      | null => simp at h
      | bool b => simp at h
      | num n => simp at h
      | str s => simp at h
      | obj o => simp at h
  | null => simp [firstActionOf] at h
  | bool b => simp [firstActionOf] at h
  | num n => simp [firstActionOf] at h
  | str s => simp [firstActionOf] at h
  | arr xs => simp [firstActionOf] at h

/-! ## Claim theorems -/

/-- Claim C1: for every event record and reference wallet, `parse_event`
returns a result value and never raises; any exception raised during
interpretation is caught at the outer boundary and surfaced to the caller as
a `"Error parsing: ..."` description string on the (partially updated)
result, never propagated as a failure signal. -/
theorem claim_c1_total_and_caught (e : Json) (w : String) :
    (∃ r : EventResult, parse_event e w = r) ∧
    (∀ m st, parseEventBody e w initResult = .error (m, st) →
      parse_event e w = { st with description := "Error parsing: " ++ m }) ∧
    (∀ r, parseEventBody e w initResult = .ok r → parse_event e w = r) := by
  refine ⟨⟨parse_event e w, rfl⟩, fun m st h => ?_, fun r h => ?_⟩ <;>
    simp [parse_event, h]

/-- Witness for C1 at a concrete faulting event: `actions` bound to the
number 7 is truthy but not subscriptable, and the `TypeError` text is
surfaced in the description. -/
theorem claim_c1_witness :
    parse_event (Json.obj [("actions", Json.num 7)]) "" =
      { initResult with description := "Error parsing: TypeError: object is not subscriptable" } :=
  (claim_c1_total_and_caught (Json.obj [("actions", Json.num 7)]) "").2.1
    "TypeError: object is not subscriptable" initResult rfl

/-- The C2 failing event: a TON transfer of `1000000000000000001` nanotons. -/
def c2Event : Json :=
  .obj [("actions", .arr [.obj [("type", .str "TonTransfer"),
    ("TonTransfer", .obj [("amount", .str "1000000000000000001")])]])]

/-- The C2 positive instance: a TON transfer of `1000000000` nanotons. -/
def c2EventSmall : Json :=
  .obj [("actions", .arr [.obj [("type", .str "TonTransfer"),
    ("TonTransfer", .obj [("amount", .str "1000000000")])]])]

/-- Claim C2 (failing evaluation): the amount stored by `parse_event` is the
binary64 value `1000000000.0` (mantissa 1953125, exponent 9), which equals
the decimal `1000000000` and differs from the exact decimal quotient
`1000000000000000001 · 10⁻⁹` — the ninth fractional digit is lost to binary
floating point, contradicting the claimed 9-digit exactness. The amount
string `"1000000000"` does yield exactly `1.0` as claimed. -/
theorem claim_c2_float_drift :
    (parse_event c2Event "W").amount = ⟨1953125, 9⟩ ∧
    fpEqDec (parse_event c2Event "W").amount 1000000000 0 = true ∧
    fpEqDec (parse_event c2Event "W").amount 1000000000000000001 (-9) = false ∧
    (parse_event c2EventSmall "W").amount = ⟨1, 0⟩ :=
  ⟨rfl, rfl, rfl, rfl⟩

/-- The C4 failing event: a TON transfer whose comment is plain text carrying
a clickable URL; the base64 decode fails (14 data characters is not a valid
padding) and the fallback path keeps the text verbatim. -/
def c4Event : Json :=
  .obj [("actions", .arr [.obj [("type", .str "TonTransfer"),
    ("TonTransfer", .obj [("comment", .str "https://evil.com")])]])]

/-- Claim C4 (failing evaluation): the plain-text fallback path strips only
non-printable characters and does not defang, so the returned description
contains a bare clickable `https://` prefix. -/
theorem claim_c4_fallback_leak :
    decode_base64_comment (.str "https://evil.com") = "" ∧
    (parse_event c4Event "W").description = "Comment: https://evil.com" ∧
    containsSub "https://".toList (parse_event c4Event "W").description.toList = true :=
  ⟨rfl, rfl, rfl⟩

/-- Claim C6: every non-empty input string longer than 4096 characters makes
`decode_base64_comment` return the fixed placeholder. -/
theorem claim_c6_size_cap (s : String) (h1 : s ≠ "") (h2 : 4096 < s.length) :
    decode_base64_comment (Json.str s) = "<encoded payload too large>" := by
  have ht : pyTruthy (Json.str s) = true := by simp [pyTruthy, h1]
  simp only [decode_base64_comment, ht, Bool.not_true, Bool.false_eq_true, if_false, pyLen]
  rw [if_pos h2]

/-- Witness for C6 at a concrete string of 4097 characters. -/
theorem claim_c6_witness :
    decode_base64_comment (Json.str (String.mk (List.replicate 4097 'a'))) =
      "<encoded payload too large>" :=
  claim_c6_size_cap _ (by decide)
    (by show 4096 < (List.replicate 4097 'a').length
        rw [List.length_replicate]
        norm_num)

/-- A jetton-transfer event with the given `decimals` metadata, used to
state the clamping instance of C7. -/
def c7Event (d : Json) : Json :=
  .obj [("actions", .arr [.obj [("type", .str "JettonTransfer"),
    ("JettonTransfer", .obj [("sender", .obj [("address", .str "A")]),
      ("amount", .str "5000000000"),
      ("jetton", .obj [("symbol", .str "TOK"), ("decimals", d)])])]])]

/-- Claim C7: the decimal count used by the jetton branch is always confined
to `[0, 30]`; it falls back to 9 when the metadata value is non-numeric or
out of range (absence yields the default 9 before conversion); and the event
with `decimals = 1000` produces the same result as the same event with
`decimals = 9`. -/
theorem claim_c7_decimals_clamped :
    (∀ raw : Json, 0 ≤ clampDecimals raw ∧ clampDecimals raw ≤ 30) ∧
    (∀ raw : Json, pyInt raw = none → clampDecimals raw = 9) ∧
    (∀ (raw : Json) (n : Int), pyInt raw = some n → ¬(0 ≤ n ∧ n ≤ 30) →
      clampDecimals raw = 9) ∧
    parse_event (c7Event (.num 1000)) "B" = parse_event (c7Event (.num 9)) "B" := by
  refine ⟨?_, ?_, ?_, rfl⟩
  · intro raw
    unfold clampDecimals
    cases pyInt raw with
    | none => exact ⟨by norm_num, by norm_num⟩
    | some d =>
      dsimp only
      split
      · next h => exact h
      · exact ⟨by norm_num, by norm_num⟩
  · intro raw h; simp [clampDecimals, h]
  · intro raw n h hn; simp [clampDecimals, h, hn]

/-- Witness for C7: the out-of-range decimal count 1000 falls back to 9. -/
theorem claim_c7_witness : clampDecimals (Json.num 1000) = 9 :=
  claim_c7_decimals_clamped.2.2.1 (Json.num 1000) 1000 rfl (by omega)

/-- Claim C9: events that agree on the first entry of their `actions`
sequence produce identical results, whatever follows that entry and whatever
else the event records contain. -/
theorem claim_c9_first_action_only (e1 e2 : Json) (w : String) (a : Json)
    (h1 : firstActionOf e1 = some a) (h2 : firstActionOf e2 = some a) :
    parse_event e1 w = parse_event e2 w := by
  unfold parse_event
  rw [parseEventBody_firstAction h1, parseEventBody_firstAction h2]

/-- A first action shared by the two C9 witness events. -/
def c9Action : Json :=
  .obj [("type", .str "TonTransfer"),
    ("TonTransfer", .obj [("sender", .obj [("address", .str "A")]),
      ("amount", .str "7000000000")])]

/-- C9 witness event with a second action that differs. -/
def c9Event1 : Json :=
  .obj [("actions", .arr [c9Action,
    .obj [("type", .str "ContractDeploy")]]), ("extra", .num 1)]

/-- C9 witness event with a single action. -/
def c9Event2 : Json :=
  .obj [("actions", .arr [c9Action])]

/-- Witness for C9 at two concrete events sharing their first action. -/
theorem claim_c9_witness : parse_event c9Event1 "A" = parse_event c9Event2 "A" :=
  claim_c9_first_action_only c9Event1 c9Event2 "A" c9Action rfl rfl

/-- Word characters in the sense of spec §4.1 (ASCII letters and digits, the
underscore, and the Cyrillic block). -/
def isWordChar (c : Char) : Bool :=
  ('a' ≤ c && c ≤ 'z') || ('A' ≤ c && c ≤ 'Z') || ('0' ≤ c && c ≤ '9') ||
  c == '_' || (0x400 ≤ c.toNat && c.toNat ≤ 0x4FF)

/-- Worker for `specDotDefang`: carries the previous character. -/
def specDotGo (prev : Option Char) : List Char → List Char
  | [] => []
  | c :: rest =>
    if c = '.' then
      match prev, rest with
      | some p, n :: _ =>
        if isWordChar p && isWordChar n then '[' :: '.' :: ']' :: specDotGo (some c) rest
        else c :: specDotGo (some c) rest
      | _, _ => c :: specDotGo (some c) rest
    else c :: specDotGo (some c) rest

/-- The dot rule exactly as the specification words it (the comparison
definition for claim C5): a bracket marker is inserted only at a `.` that
sits between two word characters; any other `.` is left untouched. -/
def specDotDefang (l : List Char) : List Char :=
  specDotGo none l

/-- The single-character replacement performed by the defang chain expands
every `.` into `[.]`: a fuelled unfolding of `replGo` with the dot pattern. -/
theorem replGo_dot (fuel : Nat) (l : List Char) (h : l.length ≤ fuel) :
    replGo ['.'] ['[', '.', ']'] fuel l =
      l.foldr (fun c acc => (if c = '.' then ['[', '.', ']'] else [c]) ++ acc) [] := by
  induction l generalizing fuel with
  | nil => cases fuel <;> simp [replGo]
  | cons c rest ih =>
    cases fuel with
    | zero => simp at h
    | succ f =>
      have hr : rest.length ≤ f := by
        simp only [List.length_cons] at h
        omega
      by_cases hc : c = '.'
      · subst hc
        simp [replGo, List.isPrefixOf, ih f hr]
      · simp [replGo, List.isPrefixOf, hc, Ne.symm hc, ih f hr]

/-- The original C5 claim fails at the comment `( . )` (base64 `KCAuICk=`):
the decoder brackets the dot even though a non-word character flanks it on
both sides, where the spec rule would leave it untouched. -/
theorem claim_c5_cex :
    decode_base64_comment (Json.str "KCAuICk=") = "( [.] )" ∧
    specDotDefang "( . )".toList = "( . )".toList ∧
    ("( [.] )" : String) ≠ "( . )" :=
  ⟨rfl, rfl, by decide⟩

/-- Amended claim C5: in the defang step the bracket marker is inserted at
every `.` of the (scheme-replaced) text, with no context condition — dots
between word characters are defanged, but so is sentence punctuation. -/
theorem claim_c5_every_dot_marked (l : List Char) :
    defangChars l =
      (replaceSeq "https://".toList "hxxps://".toList
        (replaceSeq "http://".toList "hxxp://".toList l)).foldr
        (fun c acc => (if c = '.' then ['[', '.', ']'] else [c]) ++ acc) [] := by
  unfold defangChars
  exact replGo_dot _ _ le_rfl

/-- Whether a transfer action record carries no sender address (no `sender`
field at all, or a `sender` record without an `address` field). -/
def noSenderAddress (kvs : List (String × Json)) : Bool :=
  match lookupField kvs "sender" with
  | none => true
  | some (.obj skvs) => (lookupField skvs "address").isNone
  | some _ => false

/-- Whether the jetton metadata field of a jetton transfer is either absent
or a record (so that reading the symbol does not raise). -/
def jettonMetaShape (kvs : List (String × Json)) : Bool :=
  match lookupField kvs "jetton" with
  | none => true
  | some (.obj _) => true
  | some _ => false

/-- Claim C10: with the empty string as reference wallet, a `TonTransfer` or
`JettonTransfer` event carrying no sender address gets the defaulted empty
sender, which compares equal to the wallet, so the event is reported as an
outgoing transfer (`direction = "out"`, a Sent action) although its sender is
entirely unknown. -/
theorem claim_c10_empty_wallet_out :
    (∀ (e : Json) (akvs tkvs : List (String × Json)),
      firstActionOf e = some (.obj akvs) →
      lookupField akvs "type" = some (.str "TonTransfer") →
      lookupField akvs "TonTransfer" = some (.obj tkvs) →
      noSenderAddress tkvs = true →
      (parse_event e "").direction = "out" ∧
      (parse_event e "").action = "ðŸ’¸ Sent TON") ∧
    (∀ (e : Json) (akvs jkvs : List (String × Json)),
      firstActionOf e = some (.obj akvs) →
      lookupField akvs "type" = some (.str "JettonTransfer") →
      lookupField akvs "JettonTransfer" = some (.obj jkvs) →
      noSenderAddress jkvs = true →
      jettonMetaShape jkvs = true →
      (parse_event e "").direction = "out") := by
  constructor
  · intro e akvs tkvs hfa hty htr hns
    unfold parse_event
    rw [parseEventBody_firstAction hfa]
    have h1 : pyGetD (Json.obj akvs) "type" .null = .ok (.str "TonTransfer") := by
      simp [pyGetD, hty]
    have h2 : pyGetD (Json.obj akvs) "TonTransfer" (.obj []) = .ok (.obj tkvs) := by
      simp [pyGetD, htr]
    simp only [parseAction, h1, pyEqStr, tonTransferBranch, h2]
    unfold noSenderAddress at hns
    cases hs : lookupField tkvs "sender" with
    | none =>
      simp [pyGetD, hs, pyEqStr, lookupField, Option.getD]
    | some sv =>
      rw [hs] at hns
      cases sv with
      | obj skvs =>
        have hns2 : (lookupField skvs "address").isNone = true := hns
        cases ha : lookupField skvs "address" with
        | none => simp [pyGetD, hs, ha, pyEqStr, lookupField, Option.getD]
        | some av => rw [ha] at hns2; simp at hns2
      | null => simp at hns
      | bool b => simp at hns
      | num n => simp at hns
      | str s => simp at hns
      | arr xs => simp at hns
  · intro e akvs jkvs hfa hty htr hns hjm
    unfold parse_event
    rw [parseEventBody_firstAction hfa]
    have h1 : pyGetD (Json.obj akvs) "type" .null = .ok (.str "JettonTransfer") := by
      simp [pyGetD, hty]
    have h2 : pyGetD (Json.obj akvs) "JettonTransfer" (.obj []) = .ok (.obj jkvs) := by
      simp [pyGetD, htr]
    have hpa : parseAction (Json.obj akvs) "" initResult =
        jettonTransferBranch (Json.obj akvs) "" initResult := by
      simp [parseAction, h1, pyEqStr]
    rw [hpa]
    have hsc : scamHit "TOKEN" = false := by decide
    unfold noSenderAddress at hns
    unfold jettonMetaShape at hjm
    unfold jettonTransferBranch
    rw [h2]
    cases hs : lookupField jkvs "sender" with
    | none =>
      cases hj : lookupField jkvs "jetton" with
      | none =>
        simp [pyGetD, hs, hj, lookupField, pyEqStr, hsc]
      | some jv =>
        rw [hj] at hjm
        cases jv with
        | obj j2 =>
          simp only [pyGetD, hs, hj, Option.getD, lookupField]
          cases hsym : lookupField j2 "symbol" with
          | none => simp [pyEqStr, hsc]
          | some symv =>
            cases symv with
            | str s => cases hbs : scamHit s <;> simp [pyEqStr, hbs]
            | null => simp [pyEqStr]
            | bool b => simp [pyEqStr]
            | num n => simp [pyEqStr]
            | arr xs => simp [pyEqStr]
            | obj o => simp [pyEqStr]
        | null => simp at hjm
        | bool b => simp at hjm
        | num n => simp at hjm
        | str s => simp at hjm
        | arr xs => simp at hjm
    | some sv =>
      rw [hs] at hns
      cases sv with
      | obj skvs =>
        have hns2 : (lookupField skvs "address").isNone = true := hns
        cases ha : lookupField skvs "address" with
        | none =>
          cases hj : lookupField jkvs "jetton" with
          | none =>
            simp [pyGetD, hs, ha, hj, lookupField, pyEqStr, hsc]
          | some jv =>
            rw [hj] at hjm
            cases jv with
            | obj j2 =>
              simp only [pyGetD, hs, ha, hj, Option.getD, lookupField]
              cases hsym : lookupField j2 "symbol" with
              | none => simp [pyEqStr, hsc]
              | some symv =>
                cases symv with
                | str s => cases hbs : scamHit s <;> simp [pyEqStr, hbs]
                | null => simp [pyEqStr]
                | bool b => simp [pyEqStr]
                | num n => simp [pyEqStr]
                | arr xs => simp [pyEqStr]
                | obj o => simp [pyEqStr]
            | null => simp at hjm
            | bool b => simp at hjm
            | num n => simp at hjm
            | str s => simp at hjm
            | arr xs => simp at hjm
        | some av => rw [ha] at hns2; simp at hns2
      | null => simp at hns
      | bool b => simp at hns
      | num n => simp at hns
      | str s => simp at hns
      | arr xs => simp at hns

/-- The C10 witness event: a TON transfer with no sender information at all. -/
def c10Event : Json :=
  .obj [("actions", .arr [.obj [("type", .str "TonTransfer"),
    ("TonTransfer", .obj [("amount", .str "42")])]])]

/-- Witness for C10: the concrete sender-less transfer with wallet `""` is
reported as outgoing. -/
theorem claim_c10_witness :
    (parse_event c10Event "").direction = "out" ∧
    (parse_event c10Event "").action = "ðŸ’¸ Sent TON" :=
  claim_c10_empty_wallet_out.1 c10Event _ _ rfl rfl rfl rfl

/-- A Python string comparison succeeds exactly on the equal string value. -/
theorem pyEqStr_eq_true {v : Json} {w : String} (h : pyEqStr v w = true) :
    v = .str w := by
  cases v <;> simp [pyEqStr] at h
  simp [h]

/-- Direction facts for a successful `TonTransfer` branch: out on sender
match, in otherwise, with the sender read along the code's access path. -/
theorem tonBranch_ok_direction {a : Json} {w : String} {st r : EventResult}
    (h : tonTransferBranch a w st = .ok r) :
    (r.direction = "out" ↔ pyEqStr (senderInAction a "TonTransfer") w = true) ∧
    (r.direction = "out" ∨ r.direction = "in") := by
  unfold tonTransferBranch at h
  cases h1 : pyGetD a "TonTransfer" (.obj []) with
  | error m => rw [h1] at h; simp at h
  | ok tr =>
    rw [h1] at h
    dsimp only at h
    cases h2 : pyGetD tr "comment" .null with
    | error m => rw [h2] at h; simp at h
    | ok cv =>
      rw [h2] at h
      dsimp only at h
      cases h3 : pyGetD tr "sender" (.obj []) with
      | error m => rw [h3] at h; simp at h
      | ok sv =>
        rw [h3] at h
        dsimp only at h
        cases h4 : pyGetD sv "address" (.str "") with
        | error m => rw [h4] at h; simp at h
        | ok ad =>
          rw [h4] at h
          dsimp only at h
          cases h5 : pyGetD tr "amount" (.num 0) with
          | error m => rw [h5] at h; simp at h
          | ok av =>
            rw [h5] at h
            dsimp only at h
            have hsend : senderInAction a "TonTransfer" = ad := by
              unfold senderInAction
              rw [getDT_of_pyGetD_ok h1, getDT_of_pyGetD_ok h3, getDT_of_pyGetD_ok h4]
            rw [hsend]
            cases hc : pyEqStr ad w with
            | false =>
              simp [hc] at h
              subst h
              simp
            | true =>
              simp [hc] at h
              subst h
              simp

/-- Direction and scam facts for a successful `JettonTransfer` branch. -/
theorem jettonBranch_ok_spec {a : Json} {w : String} {st r : EventResult}
    (h : jettonTransferBranch a w st = .ok r) :
    (r.direction = "out" ↔ pyEqStr (senderInAction a "JettonTransfer") w = true) ∧
    (r.direction = "out" ∨ r.direction = "in") ∧
    (∀ sym : String, jettonSymbolIn a = .str sym → scamHit sym = true →
      r.is_scam_risk = true ∧ ∃ d, r.description = d ++ scamSuffix) := by
  unfold jettonTransferBranch at h
  cases h1 : pyGetD a "JettonTransfer" (.obj []) with
  | error m => rw [h1] at h; simp at h
  | ok jt =>
    rw [h1] at h
    dsimp only at h
    cases h2 : pyGetD jt "sender" (.obj []) with
    | error m => rw [h2] at h; simp at h
    | ok sv =>
      rw [h2] at h
      dsimp only at h
      cases h3 : pyGetD sv "address" (.str "") with
      | error m => rw [h3] at h; simp at h
      | ok ad =>
        rw [h3] at h
        dsimp only at h
        cases h4 : pyGetD jt "jetton" (.obj []) with
        | error m => rw [h4] at h; simp at h
        | ok jet =>
          rw [h4] at h
          dsimp only at h
          cases h5 : pyGetD jet "symbol" (.str "TOKEN") with
          | error m => rw [h5] at h; simp at h
          | ok symbol =>
            rw [h5] at h
            dsimp only at h
            cases h7 : pyGetD jet "decimals" (.num 9) with
            | error m => rw [h7] at h; simp at h
            | ok rawDec =>
                rw [h7] at h
                dsimp only at h
                cases h8 : pyGetD jt "amount" (.num 0) with
                | error m => rw [h8] at h; simp at h
                | ok av =>
                  rw [h8] at h
                  dsimp only at h
                  have hsend : senderInAction a "JettonTransfer" = ad := by
                    unfold senderInAction
                    rw [getDT_of_pyGetD_ok h1, getDT_of_pyGetD_ok h2, getDT_of_pyGetD_ok h3]
                  have hsym : jettonSymbolIn a = symbol := by
                    unfold jettonSymbolIn
                    rw [getDT_of_pyGetD_ok h1, getDT_of_pyGetD_ok h4, getDT_of_pyGetD_ok h5]
                  rw [hsend, hsym]
                  cases symbol with
                  | str sym0 =>
                    cases hc : pyEqStr ad w with
                    | false =>
                      cases hscam : scamHit sym0 with
                      | false =>
                        simp [hc, hscam] at h
                        subst h
                        constructor
                        · simp
                        constructor
                        · simp
                        · intro sym hs hh
                          rw [Json.str.injEq] at hs
                          rw [hs] at hscam
                          rw [hh] at hscam
                          simp at hscam
                      | true =>
                        simp [hc, hscam] at h
                        subst h
                        refine ⟨by simp, by simp, fun sym hs hh => ⟨rfl, _, rfl⟩⟩
                    | true =>
                      cases hscam : scamHit sym0 with
                      | false =>
                        simp [hc, hscam] at h
                        subst h
                        constructor
                        · simp
                        constructor
                        · simp
                        · intro sym hs hh
                          rw [Json.str.injEq] at hs
                          rw [hs] at hscam
                          rw [hh] at hscam
                          simp at hscam
                      | true =>
                        simp [hc, hscam] at h
                        subst h
                        refine ⟨by simp, by simp, fun sym hs hh => ⟨rfl, _, rfl⟩⟩
                  | null => simp at h
                  | bool b => simp at h
                  | num n => simp at h
                  | arr xs => simp at h
                  | obj o => simp at h

/-- A successful `SmartContractExec` branch does not change the direction. -/
theorem execBranch_ok_direction {a : Json} {st r : EventResult}
    (h : smartContractExecBranch a st = .ok r) : r.direction = st.direction := by
  unfold smartContractExecBranch at h
  cases h1 : pyGetD a "SmartContractExec" (.obj []) with
  | error m => rw [h1] at h; simp at h
  | ok sce =>
    rw [h1] at h
    dsimp only at h
    cases h2 : pyGetD sce "operation" (.str "Unknown") with
    | error m => rw [h2] at h; simp at h
    | ok op_code =>
      rw [h2] at h
      dsimp only at h
      cases h3 : opcodesGet op_code with
      | error m => rw [h3] at h; simp at h
      | ok op_name =>
        rw [h3] at h
        simp at h
        subst h
        rfl

/-- The C3 counterexample event: transfer-shaped, with a `sender` field that
is not a record, so reading `sender.address` raises mid-branch. -/
def c3CexEvent : Json :=
  .obj [("actions", .arr [.obj [("type", .str "TonTransfer"),
    ("TonTransfer", .obj [("sender", .num 5)])]])]

/-- The original C3 claim fails at `c3CexEvent` with the empty reference
wallet: the event is transfer-shaped and its (defaulted) sender address
equals the wallet, so the claimed invariant requires `direction = "out"`
(and in any case `"in"` for a transfer-shaped event), yet the caught
`AttributeError` leaves the direction `"neutral"`. -/
theorem claim_c3_cex :
    transferShaped c3CexEvent = true ∧
    pyEqStr (senderOfD c3CexEvent) "" = true ∧
    (parse_event c3CexEvent "").direction = "neutral" ∧
    ¬((parse_event c3CexEvent "").direction = "out" ↔
      (transferShaped c3CexEvent = true ∧ pyEqStr (senderOfD c3CexEvent) "" = true)) :=
  ⟨rfl, rfl, rfl, by decide⟩

/-- Amended claim C3: on every interpretation that completes without an
internal fault, the direction is `"out"` iff the event is transfer-shaped
and the extracted sender address equals the reference wallet (case-sensitive
exact string comparison); transfer-shaped events otherwise yield `"in"`, and
non-transfer events yield `"neutral"`. (Interpretations aborted by a caught
exception keep whatever direction was assigned before the fault.) -/
theorem claim_c3_direction_amended (e : Json) (w : String) (r : EventResult)
    (h : parseEventBody e w initResult = .ok r) :
    (r.direction = "out" ↔ (transferShaped e = true ∧ pyEqStr (senderOfD e) w = true)) ∧
    (transferShaped e = true → r.direction = "out" ∨ r.direction = "in") ∧
    (transferShaped e = false → r.direction = "neutral") := by
  unfold parseEventBody at h
  cases hA : pyGetD e "actions" (.arr []) with
  | error m => rw [hA] at h; simp at h
  | ok actions =>
    rw [hA] at h
    dsimp only at h
    cases hT : pyTruthy actions with
    | false =>
      rw [hT] at h
      simp at h
      have hsh : transferShaped e = false := by simp [transferShaped, hA, hT]
      rw [hsh, ← h]
      simp [initResult]
    | true =>
      rw [hT] at h
      simp only [if_true] at h
      cases hI : pyIndex0 actions with
      | error m => rw [hI] at h; simp at h
      | ok a =>
        rw [hI] at h
        dsimp only at h
        unfold parseAction at h
        cases hTy : pyGetD a "type" .null with
        | error m => rw [hTy] at h; simp at h
        | ok ty =>
          rw [hTy] at h
          dsimp only at h
          cases hc1 : pyEqStr ty "TonTransfer" with
          | true =>
            simp only [hc1, if_true] at h
            obtain ⟨l1, l2⟩ := tonBranch_ok_direction h
            have hsh : transferShaped e = true := by
              simp [transferShaped, hA, hT, hI, hTy, hc1]
            have hsd : senderOfD e = senderInAction a "TonTransfer" := by
              simp [senderOfD, hA, hT, hI, hTy, hc1]
            rw [hsh, hsd]
            refine ⟨by rw [l1]; simp, fun _ => l2, by simp⟩
          | false =>
            simp only [hc1, Bool.false_eq_true, if_false] at h
            cases hc2 : pyEqStr ty "JettonTransfer" with
            | true =>
              simp only [hc2, if_true] at h
              obtain ⟨l1, l2, _⟩ := jettonBranch_ok_spec h
              have hsh : transferShaped e = true := by
                simp [transferShaped, hA, hT, hI, hTy, hc2]
              have hsd : senderOfD e = senderInAction a "JettonTransfer" := by
                simp [senderOfD, hA, hT, hI, hTy, hc1, hc2]
              rw [hsh, hsd]
              refine ⟨by rw [l1]; simp, fun _ => l2, by simp⟩
            | false =>
              simp only [hc2, Bool.false_eq_true, if_false] at h
              have hsh : transferShaped e = false := by
                simp [transferShaped, hA, hT, hI, hTy, hc1, hc2]
              cases hc3 : pyEqStr ty "ContractDeploy" with
              | true =>
                simp only [hc3, if_true] at h
                simp at h
                rw [hsh, ← h]
                simp [initResult]
              | false =>
                simp only [hc3, Bool.false_eq_true, if_false] at h
                cases hc4 : pyEqStr ty "SmartContractExec" with
                | true =>
                  simp only [hc4, if_true] at h
                  have hd := execBranch_ok_direction h
                  rw [hsh, hd]
                  simp [initResult]
                | false =>
                  simp only [hc4, Bool.false_eq_true, if_false] at h
                  simp at h
                  rw [hsh, ← h]
                  simp [initResult]

/-- The C3 witness event: a completed TON transfer whose sender matches the
wallet. -/
def c3OkEvent : Json :=
  .obj [("actions", .arr [.obj [("type", .str "TonTransfer"),
    ("TonTransfer", .obj [("sender", .obj [("address", .str "A")]),
      ("amount", .str "1")])]])]

/-- Witness for the amended C3 at a concrete completed interpretation. -/
theorem claim_c3_witness : (parse_event c3OkEvent "A").direction = "out" :=
  (claim_c3_direction_amended c3OkEvent "A" (parse_event c3OkEvent "A") rfl).1.mpr
    ⟨rfl, rfl⟩

/-- The C8 scenario event of the specification: a `FREE-GIFT` jetton
transfer of `1000000000` base units with 9 decimals from sender `A`. -/
def c8Event : Json :=
  .obj [("actions", .arr [.obj [("type", .str "JettonTransfer"),
    ("JettonTransfer", .obj [("sender", .obj [("address", .str "A")]),
      ("amount", .str "1000000000"),
      ("jetton", .obj [("symbol", .str "FREE-GIFT"), ("decimals", .num 9)])])]])]

/-- The C8 counterexample event: a jetton transfer whose token symbol is the
scammy `FREE-GIFT`, but whose `sender` field is a number, so reading
`sender.get("address", "")` raises before the scam check runs. -/
def c8CexEvent : Json :=
  .obj [("actions", .arr [.obj [("type", .str "JettonTransfer"),
    ("JettonTransfer", .obj [("sender", .num 5),
      ("amount", .str "1000000000"),
      ("jetton", .obj [("symbol", .str "FREE-GIFT"), ("decimals", .num 9)])])]])]

/-- The original C8 claim fails at `c8CexEvent`: the first action is a
jetton transfer whose (spec-side) token symbol is `FREE-GIFT` — lowercased
it contains the denylist substrings `free` and `gift` — yet the caught
`AttributeError` at the sender access aborts the branch before the scam
check, so the result has `is_scam_risk = false` and the default direction,
against the claimed unconditional flagging. -/
theorem claim_c8_cex :
    firstTypeIs c8CexEvent "JettonTransfer" = true ∧
    symbolOfD c8CexEvent = Json.str "FREE-GIFT" ∧
    scamHit "FREE-GIFT" = true ∧
    (parse_event c8CexEvent "B").is_scam_risk = false ∧
    (parse_event c8CexEvent "B").direction = "neutral" :=
  ⟨rfl, rfl, rfl, rfl, rfl⟩

/-- Amended claim C8: whenever the interpretation of a jetton transfer
completes without an internal fault and the lowercased token symbol contains
one of the denylist substrings `claim`, `gift`, `subs`, `free`, `voucher`,
the result is flagged as a scam risk and the warning suffix is appended to
the description (a faulting interpretation, e.g. one with a non-record
sender field, leaves `is_scam_risk = false`); and the spec scenario
(`FREE-GIFT`, amount string `"1000000000"`, 9 decimals, sender `"A"`,
wallet `"B"`) yields direction `"in"`, amount exactly `1.0`, currency
`FREE-GIFT`, and `is_scam_risk = true`. -/
theorem claim_c8_scam_heuristic :
    (∀ (e : Json) (w : String) (r : EventResult) (sym : String),
      parseEventBody e w initResult = .ok r →
      firstTypeIs e "JettonTransfer" = true →
      symbolOfD e = .str sym → scamHit sym = true →
      r.is_scam_risk = true ∧ ∃ d, r.description = d ++ scamSuffix) ∧
    ((parse_event c8Event "B").direction = "in" ∧
     (parse_event c8Event "B").amount = ⟨1, 0⟩ ∧
     fpEqDec (parse_event c8Event "B").amount 1 0 = true ∧
     (parse_event c8Event "B").currency = Json.str "FREE-GIFT" ∧
     (parse_event c8Event "B").is_scam_risk = true) := by
  constructor
  · intro e w r sym h hft hsy hsc
    unfold parseEventBody at h
    cases hA : pyGetD e "actions" (.arr []) with
    | error m => rw [hA] at h; simp at h
    | ok actions =>
      rw [hA] at h
      dsimp only at h
      cases hT : pyTruthy actions with
      | false => simp [firstTypeIs, hA, hT] at hft
      | true =>
        rw [hT] at h
        simp only [if_true] at h
        cases hI : pyIndex0 actions with
        | error m => rw [hI] at h; simp at h
        | ok a =>
          rw [hI] at h
          dsimp only at h
          unfold parseAction at h
          cases hTy : pyGetD a "type" .null with
          | error m => rw [hTy] at h; simp at h
          | ok ty =>
            rw [hTy] at h
            dsimp only at h
            cases hc2 : pyEqStr ty "JettonTransfer" with
            | false => simp [firstTypeIs, hA, hT, hI, hTy, hc2] at hft
            | true =>
              have hty : ty = .str "JettonTransfer" := pyEqStr_eq_true hc2
              subst hty
              simp only [show pyEqStr (Json.str "JettonTransfer") "TonTransfer" = false from rfl,
                Bool.false_eq_true, if_false, hc2, if_true] at h
              have hsy2 : jettonSymbolIn a = .str sym := by
                simp only [symbolOfD, hA, hT, hI, hTy, hc2, if_true] at hsy
                exact hsy
              exact (jettonBranch_ok_spec h).2.2 sym hsy2 hsc
  · exact ⟨rfl, rfl, rfl, rfl, rfl⟩

/-- Witness for the general part of C8 at the scenario event. -/
theorem claim_c8_witness :
    (parse_event c8Event "B").is_scam_risk = true ∧
    ∃ d, (parse_event c8Event "B").description = d ++ scamSuffix :=
  claim_c8_scam_heuristic.1 c8Event "B" (parse_event c8Event "B") "FREE-GIFT"
    rfl rfl rfl rfl

end TonSemanticDecoder
